import Mathlib

set_option maxRecDepth 8000

/-!
Shallow embedding of `personalized.py`: document extraction, prompt
composition, and the generate/edit session pipeline of the AI message
generator, together with theorems about the claims of its specification.

Modelling conventions:
* Python strings are `String` (a list of code points); Python slicing
  `s[:n]` is `pyTake s n`, Python `str.strip()` is `pyStrip s`.
* A docx document is the list of its paragraph texts; a pdf is the list of
  the per-page `extract_text()` results (`none` when extraction yields no
  text object); a pptx is a list of slides, each a list of shapes, where a
  shape is `some text` when it has a `text` attribute and `none` otherwise.
* The filesystem that may hold per-platform template override files is a
  function `String → Option (List String)` mapping a path to the paragraph
  list of the docx stored there (`none` when `os.path.exists` is false).
* The external generation model call is an `Except String String`: either
  the exception message or the response text.
* Streamlit session state is the record of the two message slots and the
  `show_edit` flag.
-/

/-- Python slicing `s[:n]` on a string of code points. -/
def pyTake (s : String) (n : Nat) : String := String.mk (s.data.take n)

/-- Python `str.strip()` on a string of code points: drop leading and
trailing whitespace. -/
def pyStrip (s : String) : String :=
  String.mk (((s.data.dropWhile Char.isWhitespace).reverse.dropWhile Char.isWhitespace).reverse)

/-- `read_docx`: join the stripped paragraph texts, skipping paragraphs whose
stripped text is empty (the Python list comprehension
`[para.text.strip() for para in doc.paragraphs if para.text.strip()]`). -/
def read_docx (paragraphs : List String) : String :=
  String.intercalate "\n"
    (paragraphs.filterMap (fun p => if pyStrip p ≠ "" then some (pyStrip p) else none))

/-- `read_pdf`: join the per-page extracted texts, skipping pages whose
`extract_text()` is falsy (`None` or the empty string). -/
def read_pdf (pages : List (Option String)) : String :=
  String.intercalate "\n"
    (pages.filterMap (fun page =>
      match page with
      | some t => if t ≠ "" then some t else none
      | none => none))

/-- `read_pptx`: iterate slides in order, shapes in order, appending the
stripped text of every shape that has a `text` attribute (empty or not). -/
def read_pptx (slides : List (List (Option String))) : String :=
  String.intercalate "\n"
    (slides.foldl
      (fun texts slide =>
        slide.foldl
          (fun texts shape =>
            match shape with
            | some t => texts ++ [pyStrip t]
            | none => texts)
          texts)
      [])

/-- `read_txt`: the payload is modelled as the UTF-8 decoding of the raw
bytes; the function returns it verbatim. -/
def read_txt (content : String) : String := content

/-- `scrape_website`: the fetch-and-parse pipeline is modelled by its
outcome, `Except.ok` carrying the text that `soup.get_text` produced after
dropping script/style/noscript tags, `Except.error` carrying `str(e)` of the
raised exception. The except-branch wraps the error into a sentinel string. -/
def scrape_website (fetched : Except String String) : String :=
  match fetched with
  | Except.ok text => text
  | Except.error e => "Error scraping website: " ++ e

/-- The hardcoded LinkedIn default prompt. -/
def linkedin_default : String :=
  "🔗 LinkedIn Message Prompt:\nYou are a senior B2B sales strategist. Write a short, human, personalized LinkedIn message. Make it relevant, clear, and rooted in uploaded product content. No buzzwords or filler. Max 70 words."

/-- The hardcoded WhatsApp default prompt. -/
def whatsapp_default : String :=
  "💬 WhatsApp Message Prompt:\nWrite a casual yet professional WhatsApp message introducing a B2B SaaS product. Keep it brief (max 50 words), friendly, and based only on uploaded content. Don’t use emojis or sales jargon."

/-- The hardcoded Email default prompt. -/
def email_default : String :=
  "✉️ Email Prompt:\nCraft a short outbound B2B email introducing a product. Include a strong opener, clear value prop, 2–3 features, and a soft CTA. Stay under 140 words. Use uploaded materials only."

/-- The `default_prompts` dict as a partial lookup (`dict.get`). -/
def default_prompts (platform : String) : Option String :=
  if platform = "LinkedIn" then some linkedin_default
  else if platform = "WhatsApp" then some whatsapp_default
  else if platform = "Email" then some email_default
  else none

/-- The `filename_map` dict with default `""` (`dict.get(platform, "")`). -/
def filename_map (platform : String) : String :=
  if platform = "LinkedIn" then "linkdln.docx"
  else if platform = "WhatsApp" then "whatsapp.docx"
  else if platform = "Email" then "email.docx"
  else ""

/-- `load_sales_prompt`: return the extracted text of the per-platform
override docx when the file exists, else the hardcoded default, else the
sentinel string. -/
def load_sales_prompt (fs : String → Option (List String)) (platform : String) : String :=
  let file_path := filename_map platform
  if file_path ≠ "" then
    match fs file_path with
    | some paragraphs => read_docx paragraphs
    | none => (default_prompts platform).getD "Message format not found."
  else (default_prompts platform).getD "Message format not found."

/-- The message-type selectbox: "Generic" or "Personalized". -/
inductive MessageType where
  | Generic
  | Personalized
deriving DecidableEq, Repr

/-- The Streamlit session state slots used by the pipeline. -/
structure SessionState where
  generated_message : String
  edited_message : String
  show_edit : Bool
deriving DecidableEq, Repr

/-- `final_prompt` branch selection of the generate handler: generic when
`message_type == "Generic"`, custom when `custom_prompt` is truthy (a
non-empty raw string), structured-personalized otherwise. -/
def final_prompt (platform : String) (message_type : MessageType)
    (prompt_template user_content custom_prompt recipient_name company_name job_title : String) :
    String :=
  if message_type = MessageType.Generic then
    prompt_template ++ "\n\nGenerate a **generic " ++ platform ++
      " message** using this content:\n\n" ++ pyTake user_content 10000
  else if custom_prompt ≠ "" then
    custom_prompt ++ "\n\n(Here is some background info to help craft the " ++ platform ++
      " message:)\n\n" ++ pyTake user_content 10000
  else
    prompt_template ++ "\n\nGenerate a **personalized " ++ platform ++
      " message** for:\nName: " ++ recipient_name ++ "\nCompany: " ++ company_name ++
      "\nJob Title: " ++ job_title ++ "\n\nBackground:\n" ++ pyTake user_content 10000

/-- Outcome of one click of the generate button: a validation error (no API
call made), or an API call with the composed prompt, the surfaced status
message and the resulting session state. -/
inductive GenerateOutcome where
  | validationError (msg : String) (st : SessionState)
  | success (prompt : String) (msg : String) (st : SessionState)
  | failure (prompt : String) (msg : String) (st : SessionState)
deriving DecidableEq, Repr

/-- The prompt sent to the model, when a call was made. -/
def GenerateOutcome.promptOf : GenerateOutcome → Option String
  | .validationError _ _ => none
  | .success p _ _ => some p
  | .failure p _ _ => some p

/-- The session state after the click. -/
def GenerateOutcome.stateOf : GenerateOutcome → SessionState
  | .validationError _ st => st
  | .success _ _ st => st
  | .failure _ _ st => st

/-- Whether the click was rejected by validation. -/
def GenerateOutcome.isValidationError : GenerateOutcome → Bool
  | .validationError _ _ => true
  | _ => false

/-- One click of the generate button (`if st.button(f"🧠 Generate ...")`):
validation, template load, prompt branch selection, model call, session
update. `res` is the outcome of `model.generate_content(final_prompt)`. -/
def generateAction (fs : String → Option (List String)) (platform : String)
    (message_type : MessageType)
    (user_content custom_prompt recipient_name company_name job_title : String)
    (st : SessionState) (res : Except String String) : GenerateOutcome :=
  if pyStrip user_content = "" ∧ pyStrip custom_prompt = "" then
    .validationError
      "❗ Please upload a document or enter a custom prompt before generating the message." st
  else if message_type = MessageType.Personalized ∧
      (pyStrip recipient_name = "" ∨ pyStrip company_name = "") then
    .validationError
      "❗ Please fill in recipient name and company name for a personalized message." st
  else
    let prompt_template := load_sales_prompt fs platform
    let fp := final_prompt platform message_type prompt_template user_content custom_prompt
      recipient_name company_name job_title
    match res with
    | Except.ok text =>
        .success fp ("✅ " ++ platform ++ " Message Generated!")
          { generated_message := text, edited_message := "", show_edit := true }
    | Except.error e =>
        .failure fp ("Generation failed: " ++ e) { st with generated_message := "" }

/-- `edit_prompt` construction of the edit handler. -/
def edit_prompt (platform edit_instruction generated : String) : String :=
  "Please revise the following " ++ platform ++ " message based on this instruction:\n" ++
    pyStrip edit_instruction ++ "\n\nOriginal Message:\n" ++ generated

/-- Outcome of one click of the edit button. -/
inductive EditOutcome where
  | warning (msg : String) (st : SessionState)
  | success (prompt : String) (msg : String) (st : SessionState)
  | failure (prompt : String) (msg : String) (st : SessionState)
deriving DecidableEq, Repr

/-- The revision prompt sent to the model, when a call was made. -/
def EditOutcome.promptOf : EditOutcome → Option String
  | .warning _ _ => none
  | .success p _ _ => some p
  | .failure p _ _ => some p

/-- The session state after the click. -/
def EditOutcome.stateOf : EditOutcome → SessionState
  | .warning _ st => st
  | .success _ _ st => st
  | .failure _ _ st => st

/-- One click of the edit button (`if st.button("✂️ Edit Message")`). -/
def editAction (platform : String) (st : SessionState) (edit_instruction : String)
    (res : Except String String) : EditOutcome :=
  if pyStrip edit_instruction ≠ "" then
    let ep := edit_prompt platform edit_instruction st.generated_message
    match res with
    | Except.ok text => .success ep "✅ Edited Message Ready" { st with edited_message := text }
    | Except.error e => .failure ep ("Editing failed: " ++ e) st
  else .warning "Please provide some instructions before editing." st

/-- An empty filesystem: no template override file exists. -/
def noFS : String → Option (List String) := fun _ => none

/-- The initial session state before any generation. -/
def idleState : SessionState := ⟨"", "", false⟩


/-! ### Helper lemmas -/

/-- Unfolding the data of a Python slice. -/
lemma pyTake_data (s : String) (n : Nat) : (pyTake s n).data = s.data.take n := rfl

/-- Every branch of `final_prompt` ends with the truncated background. -/
lemma final_prompt_background (p : String) (mt : MessageType) (t bg cp r c j : String) :
    ∃ pre, final_prompt p mt t bg cp r c j = pre ++ pyTake bg 10000 := by
  cases mt with
  | Generic =>
      unfold final_prompt
      rw [if_pos rfl]
      exact ⟨_, rfl⟩
  | Personalized =>
      by_cases h : cp = ""
      · unfold final_prompt
        rw [if_neg (by decide), if_neg (fun hn => hn h)]
        exact ⟨_, rfl⟩
      · unfold final_prompt
        rw [if_neg (by decide), if_pos h]
        exact ⟨_, rfl⟩

/-! ### Claim C1 -/

/-- Claim C1 as stated is false: when the model call raises during a generate
action, the handler overwrites the previously generated message slot with the
empty string, so the prior session state is not left unchanged. -/
theorem C1_counterexample :
    (generateAction noFS "Email" MessageType.Generic "bg" "" "" "" ""
        ⟨"old message", "prior edit", true⟩ (Except.error "boom")).stateOf =
      ⟨"", "prior edit", true⟩ ∧ ("old message" : String) ≠ "" := by decide

/-- Claim C1 (amended): when the model call fails during a generate action
that passed validation, the error is surfaced as a "Generation failed:"
message, the edited slot and the show-edit flag are left unchanged, but the
generated slot is overwritten with the empty string. -/
theorem C1_generation_failure (fs : String → Option (List String)) (p : String)
    (mt : MessageType) (bg cp r c j : String) (st : SessionState) (e : String)
    (h1 : ¬(pyStrip bg = "" ∧ pyStrip cp = ""))
    (h2 : ¬(mt = MessageType.Personalized ∧ (pyStrip r = "" ∨ pyStrip c = ""))) :
    generateAction fs p mt bg cp r c j st (Except.error e) =
      GenerateOutcome.failure (final_prompt p mt (load_sales_prompt fs p) bg cp r c j)
        ("Generation failed: " ++ e) { st with generated_message := "" } := by
  unfold generateAction
  rw [if_neg h1, if_neg h2]

/-- Witness for C1_generation_failure at a concrete input. -/
theorem C1_generation_failure_witness :
    generateAction noFS "Email" MessageType.Generic "bg" "" "" "" ""
        ⟨"old message", "prior edit", true⟩ (Except.error "boom") =
      GenerateOutcome.failure
        (final_prompt "Email" MessageType.Generic (load_sales_prompt noFS "Email") "bg" "" "" "" "")
        ("Generation failed: " ++ "boom") ⟨"", "prior edit", true⟩ :=
  C1_generation_failure noFS "Email" MessageType.Generic "bg" "" "" "" ""
    ⟨"old message", "prior edit", true⟩ "boom" (by decide) (by decide)

/-! ### Claim C2 -/

/-- Claim C2 as stated is false: a Personalized generate action with a
non-empty custom instruction is still rejected when recipient name and
company name are empty — the fields are required in every Personalized
generate, not only in the structured-personalized branch. -/
theorem C2_counterexample :
    pyStrip "do it warmly" ≠ "" ∧
    generateAction noFS "Email" MessageType.Personalized "bg" "do it warmly" "" "" ""
        idleState (Except.ok "resp") =
      GenerateOutcome.validationError
        "❗ Please fill in recipient name and company name for a personalized message."
        idleState := by decide

/-- Claim C2 (amended): the recipient-name/company-name validation error is
raised exactly when the background/instruction emptiness check passed, the
mode is Personalized, and one of the two fields is empty after stripping —
regardless of whether the custom instruction is non-empty; Generic mode never
raises it. -/
theorem C2_personalized_fields_required (fs : String → Option (List String)) (p : String)
    (mt : MessageType) (bg cp r c j : String) (st : SessionState)
    (res : Except String String) :
    generateAction fs p mt bg cp r c j st res =
        GenerateOutcome.validationError
          "❗ Please fill in recipient name and company name for a personalized message." st
      ↔ (¬(pyStrip bg = "" ∧ pyStrip cp = "") ∧ mt = MessageType.Personalized ∧
          (pyStrip r = "" ∨ pyStrip c = "")) := by
  unfold generateAction
  by_cases h1 : pyStrip bg = "" ∧ pyStrip cp = ""
  · rw [if_pos h1]
    refine iff_of_false (fun h => ?_) (fun h => h.1 h1)
    have hmsg := (GenerateOutcome.validationError.injEq _ _ _ _).mp h
    exact absurd hmsg.1 (by decide)
  · rw [if_neg h1]
    by_cases h2 : mt = MessageType.Personalized ∧ (pyStrip r = "" ∨ pyStrip c = "")
    · rw [if_pos h2]
      exact iff_of_true rfl ⟨h1, h2.1, h2.2⟩
    · rw [if_neg h2]
      refine iff_of_false ?_ (fun h => h2 ⟨h.2.1, h.2.2⟩)
      cases res with
      | ok text => simp
      | error e => simp

/-! ### Claim C3 -/

/-- Claim C3 as stated is false: a generate action whose model call fails
does not clear the previously edited result — the edited slot survives while
the generated slot is cleared, so the edited message is no longer a
derivative of the stored generated message. -/
theorem C3_counterexample :
    (generateAction noFS "Email" MessageType.Generic "bg" "" "" "" ""
        ⟨"old message", "prior edit", true⟩ (Except.error "boom")).stateOf.edited_message =
      "prior edit" ∧ ("prior edit" : String) ≠ "" := by decide

/-- Claim C3 (amended): every successful generate action clears the
previously edited result — the new session state is exactly the fresh
response with an empty edited slot — so a second successful generate clears
the edited slot even if no new edit has occurred; a failed generate leaves
the edited slot untouched. -/
theorem C3_generate_clears_edit (fs : String → Option (List String)) (p : String)
    (mt : MessageType) (bg cp r c j : String) (st : SessionState) (text : String)
    (h1 : ¬(pyStrip bg = "" ∧ pyStrip cp = ""))
    (h2 : ¬(mt = MessageType.Personalized ∧ (pyStrip r = "" ∨ pyStrip c = ""))) :
    (generateAction fs p mt bg cp r c j st (Except.ok text)).stateOf =
        { generated_message := text, edited_message := "", show_edit := true } ∧
      ∀ e : String,
        (generateAction fs p mt bg cp r c j st (Except.error e)).stateOf.edited_message =
          st.edited_message := by
  constructor
  · unfold generateAction
    rw [if_neg h1, if_neg h2]
    rfl
  · intro e
    unfold generateAction
    rw [if_neg h1, if_neg h2]
    rfl

/-- Witness for C3_generate_clears_edit at a concrete input. -/
theorem C3_generate_clears_edit_witness :
    (generateAction noFS "Email" MessageType.Generic "bg" "" "" "" ""
        ⟨"old message", "prior edit", true⟩ (Except.ok "fresh")).stateOf =
      { generated_message := "fresh", edited_message := "", show_edit := true } :=
  (C3_generate_clears_edit noFS "Email" MessageType.Generic "bg" "" "" "" ""
    ⟨"old message", "prior edit", true⟩ "fresh" (by decide) (by decide)).1

/-! ### Claim C4 -/

/-- Claim C4: prompt-shape selection is exhaustive and mutually exclusive
over (mode, customInstruction): Generic always yields the generic shape;
Personalized with an empty custom instruction yields the
structured-personalized shape; Personalized with a non-empty custom
instruction yields the custom shape, which contains the custom instruction
and the truncated background and does not depend on the per-platform
template at all. -/
theorem C4_prompt_branch_selection (p t bg cp r c j : String) :
    final_prompt p MessageType.Generic t bg cp r c j =
        t ++ "\n\nGenerate a **generic " ++ p ++
          " message** using this content:\n\n" ++ pyTake bg 10000
    ∧ (cp = "" →
        final_prompt p MessageType.Personalized t bg cp r c j =
          t ++ "\n\nGenerate a **personalized " ++ p ++
            " message** for:\nName: " ++ r ++ "\nCompany: " ++ c ++
            "\nJob Title: " ++ j ++ "\n\nBackground:\n" ++ pyTake bg 10000)
    ∧ (cp ≠ "" →
        (final_prompt p MessageType.Personalized t bg cp r c j =
            cp ++ "\n\n(Here is some background info to help craft the " ++ p ++
              " message:)\n\n" ++ pyTake bg 10000)
        ∧ ∀ t2, final_prompt p MessageType.Personalized t2 bg cp r c j =
            final_prompt p MessageType.Personalized t bg cp r c j) := by
  refine ⟨?_, ?_, ?_⟩
  · unfold final_prompt
    rw [if_pos rfl]
  · intro h
    unfold final_prompt
    rw [if_neg (by decide), if_neg (fun hn => hn h)]
  · intro h
    refine ⟨?_, ?_⟩
    · unfold final_prompt
      rw [if_neg (by decide), if_pos h]
    · intro t2
      unfold final_prompt
      rw [if_neg (by decide), if_pos h, if_neg (by decide), if_pos h]

/-- Witness for C4_prompt_branch_selection at a concrete input. -/
theorem C4_prompt_branch_selection_witness :
    final_prompt "Email" MessageType.Personalized "TEMPLATE" "bg" "write warmly" "r" "c" "j" =
      "write warmly" ++ "\n\n(Here is some background info to help craft the " ++ "Email" ++
        " message:)\n\n" ++ pyTake "bg" 10000 :=
  ((C4_prompt_branch_selection "Email" "TEMPLATE" "bg" "write warmly" "r" "c" "j").2.2
    (by decide)).1

/-! ### Claim C5 -/

/-- Claim C5: in every prompt shape, the embedded background is exactly the
first 10,000 characters of the input background: the prompt ends with
`pyTake bg 10000`, whose characters are exactly `bg.data.take 10000`, whose
length is `min 10000 bg.length`, and which is `bg` itself whenever
`bg.length ≤ 10000`. -/
theorem C5_background_truncation (p : String) (mt : MessageType) (t bg cp r c j : String) :
    (∃ pre, final_prompt p mt t bg cp r c j = pre ++ pyTake bg 10000)
    ∧ (pyTake bg 10000).data = bg.data.take 10000
    ∧ (pyTake bg 10000).length = min 10000 bg.length
    ∧ (bg.length ≤ 10000 → pyTake bg 10000 = bg) := by
  refine ⟨final_prompt_background p mt t bg cp r c j, rfl, ?_, ?_⟩
  · show (bg.data.take 10000).length = min 10000 bg.length
    exact List.length_take 10000 bg.data
  · intro h
    unfold pyTake
    rw [List.take_of_length_le h]

/-- Witness for C5_background_truncation at a concrete input. -/
theorem C5_background_truncation_witness :
    pyTake "We sell analytics software." 10000 = "We sell analytics software." :=
  (C5_background_truncation "Email" MessageType.Generic "TEMPLATE"
    "We sell analytics software." "" "" "" "").2.2.2 (by decide)

/-! ### Claim C6 -/

/-- Modelled from the claim wording, for refinement comparison only: the
docx extraction as the claim literally states it — the newline-join of the
(raw) paragraph texts, skipping paragraphs whose trimmed text is empty. -/
def read_docx_spec (paragraphs : List String) : String :=
  String.intercalate "\n" (paragraphs.filter (fun p => pyStrip p ≠ ""))

/-- Claim C6 as stated is false for docx: the code joins the *stripped*
paragraph texts, not the raw paragraph texts, so a paragraph with
surrounding whitespace is embedded stripped. -/
theorem C6_counterexample :
    read_docx [" a "] = "a" ∧ read_docx_spec [" a "] = " a " ∧
      read_docx [" a "] ≠ read_docx_spec [" a "] := by decide

/-- The inner shape fold of `read_pptx` collects stripped shape texts. -/
lemma read_pptx_inner_fold (shapes : List (Option String)) (acc : List String) :
    shapes.foldl
        (fun texts shape =>
          match shape with
          | some t => texts ++ [pyStrip t]
          | none => texts)
        acc
      = acc ++ (shapes.filterMap id).map pyStrip := by
  induction shapes generalizing acc with
  | nil => simp
  | cons hd tl ih =>
      cases hd with
      | some t => simp [List.foldl_cons, ih]
      | none => simp [List.foldl_cons, ih]

/-- The outer slide fold of `read_pptx` collects stripped shape texts over
the flattened slide list. -/
lemma read_pptx_outer_fold (slides : List (List (Option String))) (acc : List String) :
    slides.foldl
        (fun texts slide =>
          slide.foldl
            (fun texts shape =>
              match shape with
              | some t => texts ++ [pyStrip t]
              | none => texts)
            texts)
        acc
      = acc ++ (slides.flatten.filterMap id).map pyStrip := by
  induction slides generalizing acc with
  | nil => simp
  | cons hd tl ih =>
      rw [List.foldl_cons, read_pptx_inner_fold, ih, List.flatten_cons, List.filterMap_append,
        List.map_append, List.append_assoc]

/-- The docx comprehension equals stripping then dropping empties. -/
lemma read_docx_filterMap (paragraphs : List String) :
    paragraphs.filterMap (fun p => if pyStrip p ≠ "" then some (pyStrip p) else none)
      = (paragraphs.map pyStrip).filter (fun s => s ≠ "") := by
  induction paragraphs with
  | nil => rfl
  | cons hd tl ih =>
      by_cases h : pyStrip hd = ""
      · simpa [List.filterMap_cons, h] using ih
      · simpa [List.filterMap_cons, h] using ih

/-- The pdf comprehension equals collapsing the options then dropping the
empty strings. -/
lemma read_pdf_filterMap (pages : List (Option String)) :
    pages.filterMap
        (fun page =>
          match page with
          | some t => if t ≠ "" then some t else none
          | none => none)
      = (pages.filterMap id).filter (fun s => s ≠ "") := by
  induction pages with
  | nil => rfl
  | cons hd tl ih =>
      cases hd with
      | some t =>
          by_cases h : t = ""
          · simpa [List.filterMap_cons, h] using ih
          · simpa [List.filterMap_cons, h] using ih
      | none => simpa [List.filterMap_cons] using ih

/-- Claim C6 (amended): extraction returns, for docx, the newline-join of
the *stripped* paragraph texts with empty-after-strip paragraphs skipped;
for pdf, the newline-join of the per-page extracted texts in page order with
pages yielding no text skipped; for pptx, the newline-join of the stripped
texts of every shape exposing textual content, in slide and shape order,
including empty strings; for txt, the decoded payload verbatim. -/
theorem C6_extraction (paragraphs : List String) (pages : List (Option String))
    (slides : List (List (Option String))) (content : String) :
    read_docx paragraphs =
        String.intercalate "\n" ((paragraphs.map pyStrip).filter (fun s => s ≠ ""))
    ∧ read_pdf pages =
        String.intercalate "\n" ((pages.filterMap id).filter (fun s => s ≠ ""))
    ∧ read_pptx slides =
        String.intercalate "\n" ((slides.flatten.filterMap id).map pyStrip)
    ∧ read_txt content = content := by
  refine ⟨?_, ?_, ?_, rfl⟩
  · unfold read_docx
    rw [read_docx_filterMap]
  · unfold read_pdf
    rw [read_pdf_filterMap]
  · unfold read_pptx
    rw [read_pptx_outer_fold]
    rfl

/-- Witness for C2_personalized_fields_required at a concrete input. -/
theorem C2_personalized_fields_required_witness :
    generateAction noFS "Email" MessageType.Personalized "bg" "do it warmly" "Ana" "" ""
        idleState (Except.ok "resp") =
      GenerateOutcome.validationError
        "❗ Please fill in recipient name and company name for a personalized message."
        idleState :=
  (C2_personalized_fields_required noFS "Email" MessageType.Personalized "bg" "do it warmly"
    "Ana" "" "" idleState (Except.ok "resp")).mpr ⟨by decide, rfl, Or.inr (by decide)⟩

/-! ### Claim C7 -/

/-- Claim C7: when the fetch or parse fails, `scrape_website` returns
normally with the error text prefixed by "Error scraping website:", and a
subsequent prompt composition over that result still succeeds, embedding the
(truncated) error string as background text, which still starts with the
sentinel prefix. -/
theorem C7_scrape_failure (e p t cp r c j : String) (mt : MessageType) :
    scrape_website (Except.error e) = "Error scraping website: " ++ e
    ∧ (∃ pre, final_prompt p mt t (scrape_website (Except.error e)) cp r c j =
        pre ++ pyTake (scrape_website (Except.error e)) 10000)
    ∧ ("Error scraping website:").data <+: (pyTake (scrape_website (Except.error e)) 10000).data := by
  refine ⟨rfl, final_prompt_background p mt t _ cp r c j, ?_⟩
  show ("Error scraping website:").data <+: (("Error scraping website: " ++ e).data.take 10000)
  rw [String.data_append, List.take_append_eq_append_take,
    List.take_of_length_le (by decide : ("Error scraping website: ").data.length ≤ 10000)]
  have h : ("Error scraping website: ").data = ("Error scraping website:").data ++ (" ").data := by
    decide
  rw [h, List.append_assoc]
  exact List.prefix_append _ _

/-! ### Claim C8 -/

/-- Claim C8: for every edit action with a non-empty instruction, the
revision prompt is the fixed preamble, the platform name, the stripped edit
instruction, the "Original Message:" marker and the currently stored
generated text; it does not depend on the previously edited text (any state
with the same generated slot yields the same prompt). -/
theorem C8_edit_revises_generated (p instr : String) (st : SessionState)
    (res : Except String String) (h : pyStrip instr ≠ "") :
    (editAction p st instr res).promptOf =
        some ("Please revise the following " ++ p ++ " message based on this instruction:\n" ++
          pyStrip instr ++ "\n\nOriginal Message:\n" ++ st.generated_message)
    ∧ ∀ st2 : SessionState, st2.generated_message = st.generated_message →
        (editAction p st2 instr res).promptOf = (editAction p st instr res).promptOf := by
  constructor
  · unfold editAction
    rw [if_pos h]
    cases res with
    | ok text => rfl
    | error e2 => rfl
  · intro st2 hgen
    unfold editAction
    rw [if_pos h, if_pos h]
    cases res with
    | ok text => simp [edit_prompt, EditOutcome.promptOf, hgen]
    | error e2 => simp [edit_prompt, EditOutcome.promptOf, hgen]

/-- Witness for C8_edit_revises_generated at a concrete input. -/
theorem C8_edit_revises_generated_witness :
    (editAction "Email" ⟨"orig text", "prior edit", true⟩ " make it shorter "
        (Except.ok "resp")).promptOf =
      some ("Please revise the following " ++ "Email" ++
        " message based on this instruction:\n" ++ pyStrip " make it shorter " ++
        "\n\nOriginal Message:\n" ++
        (⟨"orig text", "prior edit", true⟩ : SessionState).generated_message) :=
  (C8_edit_revises_generated "Email" " make it shorter " ⟨"orig text", "prior edit", true⟩
    (Except.ok "resp") (by decide)).1

/-! ### Claim C9 -/

/-- Claim C9: template resolution returns the extracted override document
when one exists at the platform's fixed path, else the hardcoded default
(which exists for each of the three known platforms), and the sentinel
"Message format not found." for any platform outside
{LinkedIn, WhatsApp, Email} — without failing. -/
theorem C9_template_resolution (fs : String → Option (List String)) (platform : String) :
    ((platform = "LinkedIn" ∨ platform = "WhatsApp" ∨ platform = "Email") →
      (∀ paragraphs, fs (filename_map platform) = some paragraphs →
          load_sales_prompt fs platform = read_docx paragraphs)
      ∧ (fs (filename_map platform) = none →
          load_sales_prompt fs platform =
              (default_prompts platform).getD "Message format not found."
            ∧ default_prompts platform ≠ none))
    ∧ (¬(platform = "LinkedIn" ∨ platform = "WhatsApp" ∨ platform = "Email") →
        load_sales_prompt fs platform = "Message format not found.") := by
  constructor
  · intro hp
    have hne : filename_map platform ≠ "" := by
      rcases hp with h | h | h <;> subst h <;> decide
    constructor
    · intro paragraphs hfs
      simp only [load_sales_prompt]
      rw [if_pos hne, hfs]
    · intro hnone
      refine ⟨?_, ?_⟩
      · simp only [load_sales_prompt]
        rw [if_pos hne, hnone]
      · rcases hp with h | h | h <;> subst h <;> decide
  · intro hp
    have h1 : platform ≠ "LinkedIn" := fun h => hp (Or.inl h)
    have h2 : platform ≠ "WhatsApp" := fun h => hp (Or.inr (Or.inl h))
    have h3 : platform ≠ "Email" := fun h => hp (Or.inr (Or.inr h))
    simp only [load_sales_prompt, filename_map, default_prompts]
    rw [if_neg h1, if_neg h2, if_neg h3, if_neg h1, if_neg h2, if_neg h3,
      if_neg (fun hh : ("" : String) ≠ "" => hh rfl)]
    rfl

/-- Witness for C9_template_resolution at a concrete input. -/
theorem C9_template_resolution_witness :
    load_sales_prompt noFS "Email" = (default_prompts "Email").getD "Message format not found."
    ∧ default_prompts "Email" ≠ none :=
  ((C9_template_resolution noFS "Email").1 (by decide)).2 rfl

/-! ### Claim C10 -/

/-- Claim C10 as stated is false: a Personalized generate action whose
custom instruction is whitespace-only and whose background is non-empty does
not always pass validation — with empty recipient name and company name the
handler raises the personalization-fields validation error before any branch
fires. -/
theorem C10_counterexample :
    pyStrip " " = "" ∧ pyStrip "background info" ≠ "" ∧
    (generateAction noFS "Email" MessageType.Personalized "background info" " " "" "" ""
        idleState (Except.ok "resp")).isValidationError = true := by decide

/-- Claim C10 (amended): for every Personalized generate action whose custom
instruction is whitespace-only but non-empty, whose background strips to
non-empty, and whose recipient and company names strip to non-empty,
validation passes (the emptiness check tests the stripped instruction), yet
branch selection tests the raw instruction, so the custom branch fires with
the whitespace string as the instruction and the output does not depend on
the per-platform template. -/
theorem C10_whitespace_instruction (fs : String → Option (List String)) (p : String)
    (bg cp r c j : String) (st : SessionState) (res : Except String String)
    (hcp : cp ≠ "") (hcps : pyStrip cp = "") (hbg : pyStrip bg ≠ "")
    (hr : pyStrip r ≠ "") (hc : pyStrip c ≠ "") :
    (generateAction fs p MessageType.Personalized bg cp r c j st res).isValidationError = false
    ∧ (generateAction fs p MessageType.Personalized bg cp r c j st res).promptOf =
        some (cp ++ "\n\n(Here is some background info to help craft the " ++ p ++
          " message:)\n\n" ++ pyTake bg 10000)
    ∧ ∀ fs2, (generateAction fs2 p MessageType.Personalized bg cp r c j st res).promptOf =
        (generateAction fs p MessageType.Personalized bg cp r c j st res).promptOf := by
  have h1 : ¬(pyStrip bg = "" ∧ pyStrip cp = "") := fun h => hbg h.1
  have h2 : ¬(MessageType.Personalized = MessageType.Personalized ∧
      (pyStrip r = "" ∨ pyStrip c = "")) := fun h => h.2.elim hr hc
  refine ⟨?_, ?_, ?_⟩
  · unfold generateAction
    rw [if_neg h1, if_neg h2]
    cases res with
    | ok text => rfl
    | error e => rfl
  · unfold generateAction
    rw [if_neg h1, if_neg h2]
    cases res with
    | ok text =>
        show some (final_prompt p MessageType.Personalized _ bg cp r c j) = _
        unfold final_prompt
        rw [if_neg (by decide), if_pos hcp]
    | error e =>
        show some (final_prompt p MessageType.Personalized _ bg cp r c j) = _
        unfold final_prompt
        rw [if_neg (by decide), if_pos hcp]
  · intro fs2
    unfold generateAction
    rw [if_neg h1, if_neg h2, if_neg h1, if_neg h2]
    cases res with
    | ok text =>
        show some (final_prompt p MessageType.Personalized _ bg cp r c j) =
          some (final_prompt p MessageType.Personalized _ bg cp r c j)
        unfold final_prompt
        rw [if_neg (by decide), if_pos hcp, if_neg (by decide), if_pos hcp]
    | error e =>
        show some (final_prompt p MessageType.Personalized _ bg cp r c j) =
          some (final_prompt p MessageType.Personalized _ bg cp r c j)
        unfold final_prompt
        rw [if_neg (by decide), if_pos hcp, if_neg (by decide), if_pos hcp]

/-- Witness for C10_whitespace_instruction at a concrete input. -/
theorem C10_whitespace_instruction_witness :
    (generateAction noFS "Email" MessageType.Personalized "background info" " " "Ana" "Acme" ""
        idleState (Except.ok "resp")).isValidationError = false :=
  (C10_whitespace_instruction noFS "Email" "background info" " " "Ana" "Acme" "" idleState
    (Except.ok "resp") (by decide) (by decide) (by decide) (by decide) (by decide)).1
